import Mathlib

/-!
Verification of the literature-surveyor backend pipeline.

Shallow embedding of the venue-discovery service
(`backend/venue_discovery/service.py`, `mock_data.py`), the literature
service (`backend/literature/service.py`) and the idea-generation service
(`backend/ideas/service.py`, `parser.py`, `prompt.py`) together with the
ideas padding block of `backend/api_services.py`.

External HTTP providers are modelled by their observable results: a
provider call either raises (modelled as `none`) or returns parsed data
(`some ...`).  Python dict records are modelled as structures; Python
string operations (`strip`, `lower`, `in`, `sorted`) are embedded over
character lists with the same semantics on the data that occurs here.
-/

/-! ## Python string primitives -/

/-- Python `str.strip()`: remove leading and trailing whitespace. -/
def pyStrip (s : String) : String :=
  String.mk (((s.data.dropWhile Char.isWhitespace).reverse.dropWhile Char.isWhitespace).reverse)

/-- Python `str.lower()` (ASCII case folding suffices for the data here). -/
def pyLower (s : String) : String :=
  String.mk (s.data.map Char.toLower)

/-- Helper for substring search: does `needle` occur as a contiguous run in the list? -/
def containsAux (needle : List Char) : List Char → Bool
  | [] => needle.isEmpty
  | c :: rest => needle.isPrefixOf (c :: rest) || containsAux needle rest

/-- Python `needle in hay` on strings. -/
def strContains (hay needle : String) : Bool :=
  containsAux needle.data hay.data

/-- Lexicographic comparison of character lists by code point,
the order Python `sorted` uses on strings. -/
def lexLe : List Char → List Char → Bool
  | [], _ => true
  | _ :: _, [] => false
  | a :: as, b :: bs =>
    if a.toNat < b.toNat then true
    else if b.toNat < a.toNat then false
    else lexLe as bs

/-- Python string `<=` (lexicographic by code point). -/
def strLe (a b : String) : Bool :=
  lexLe a.data b.data

/-- `strLe` as a relation, for use with sorting. -/
def strLeProp (a b : String) : Prop :=
  strLe a b = true

instance : DecidableRel strLeProp := fun a b => instDecidableEqBool (strLe a b) true

theorem lexLe_total : ∀ as bs : List Char, lexLe as bs = true ∨ lexLe bs as = true := by
  intro as
  induction as with
  | nil => intro bs; left; rfl
  | cons a as ih =>
    intro bs
    cases bs with
    | nil => right; rfl
    | cons b bs =>
      by_cases hab : a.toNat < b.toNat
      · left; simp [lexLe, hab]
      · by_cases hba : b.toNat < a.toNat
        · right; simp [lexLe, hba]
        · rcases ih bs with h | h
          · left; simp [lexLe, hab, hba, h]
          · right; simp [lexLe, hab, hba, h]

theorem lexLe_trans :
    ∀ as bs cs : List Char, lexLe as bs = true → lexLe bs cs = true → lexLe as cs = true := by
  intro as
  induction as with
  | nil => intro bs cs _ _; rfl
  | cons a as ih =>
    intro bs cs h1 h2
    cases bs with
    | nil => simp [lexLe] at h1
    | cons b bs =>
      cases cs with
      | nil => simp [lexLe] at h2
      | cons c cs =>
        simp only [lexLe] at h1 h2 ⊢
        split at h1
        · split at h2
          · simp [show a.toNat < c.toNat by omega]
          · split at h2
            · exact absurd h2 (by simp)
            · simp [show a.toNat < c.toNat by omega]
        · split at h1
          · exact absurd h1 (by simp)
          · split at h2
            · simp [show a.toNat < c.toNat by omega]
            · split at h2
              · exact absurd h2 (by simp)
              · have hac : ¬ a.toNat < c.toNat := by omega
                have hca : ¬ c.toNat < a.toNat := by omega
                simp only [hac, hca, if_false]
                exact ih bs cs h1 h2

instance : IsTotal String strLeProp :=
  ⟨fun a b => lexLe_total a.data b.data⟩

instance : IsTrans String strLeProp :=
  ⟨fun a b c h1 h2 => lexLe_trans a.data b.data c.data h1 h2⟩

/-- Python `sorted(list(set(xs)))[:5]`: deduplicate, sort lexicographically,
keep the first five. -/
def sortedTop5 (xs : List String) : List String :=
  ((xs.dedup).insertionSort strLeProp).take 5

theorem sortedTop5_sorted (xs : List String) : List.Sorted strLeProp (sortedTop5 xs) :=
  (List.sorted_insertionSort strLeProp xs.dedup).take

theorem sortedTop5_nodup (xs : List String) : (sortedTop5 xs).Nodup :=
  List.Nodup.sublist (List.take_sublist _ _)
    ((List.perm_insertionSort strLeProp xs.dedup).nodup_iff.mpr (List.nodup_dedup xs))

theorem sortedTop5_length (xs : List String) : (sortedTop5 xs).length ≤ 5 :=
  List.length_take_le _ _

theorem mem_sortedTop5 {xs : List String} {x : String} (hx : x ∈ sortedTop5 xs) : x ∈ xs := by
  have h := List.mem_of_mem_take hx
  rwa [List.mem_insertionSort, List.mem_dedup] at h

/-! ## Venue discovery (`backend/venue_discovery/`)

A venue provider call observably either raises inside the provider and
returns `None` (modelled `none`), or returns a dict with conference and
journal name lists (modelled `some (VenueData ...)`). -/

/-- The venue dict shape produced by both venue providers and by
`get_mock_venues`. -/
structure VenueData where
  conferences : List String
  journals : List String
deriving DecidableEq, Repr

/-- The `MOCK_VENUES` table of `backend/venue_discovery/mock_data.py`. -/
def MOCK_VENUES_default : VenueData :=
  { conferences := ["NeurIPS", "ICML", "AAAI", "CVPR", "ICLR"],
    journals := ["Journal of Machine Learning Research", "IEEE TPAMI",
                 "Nature Machine Intelligence"] }

def MOCK_VENUES_healthcare : VenueData :=
  { conferences := ["AMIA Annual Symposium", "CHIL", "MICCAI", "IEEE BIBM"],
    journals := ["JAMIA", "Lancet Digital Health",
                 "IEEE Journal of Biomedical and Health Informatics"] }

def MOCK_VENUES_finance : VenueData :=
  { conferences := ["ICAIF (ACM International Conference on AI in Finance)", "IEEE CIFEr"],
    journals := ["Journal of Finance", "Journal of Financial Data Science",
                 "Quantitative Finance"] }

def MOCK_VENUES_education : VenueData :=
  { conferences := ["AIED", "LAK (Learning Analytics and Knowledge)", "EDM"],
    journals := ["International Journal of Artificial Intelligence in Education",
                 "Computers & Education"] }

/-- `get_mock_venues` of `backend/venue_discovery/mock_data.py`:
keyword routing on the lower-cased domain.  Note the Python operator
precedence in the education test: `or` binds looser than `and`. -/
def get_mock_venues (domain : String) : VenueData :=
  let d := pyLower domain
  if strContains d "health" || strContains d "medic" || strContains d "clinic" then
    MOCK_VENUES_healthcare
  else if strContains d "financ" || strContains d "econ" then
    MOCK_VENUES_finance
  else if strContains d "educa" || (strContains d "learn" && !strContains d "machine") then
    MOCK_VENUES_education
  else
    MOCK_VENUES_default

/-- A provider result counts towards `providers_successful` in
`discover_venues` when the call did not raise and at least one of its two
lists is non-empty. -/
def providerContributes (r : Option VenueData) : Bool :=
  match r with
  | none => false
  | some d => !(d.conferences.isEmpty && d.journals.isEmpty)

/-- The conference names a provider result feeds into the combined set. -/
def contributedConfs (r : Option VenueData) : List String :=
  if providerContributes r then (r.getD ⟨[], []⟩).conferences else []

/-- The journal names a provider result feeds into the combined set. -/
def contributedJours (r : Option VenueData) : List String :=
  if providerContributes r then (r.getD ⟨[], []⟩).journals else []

/-- Step 3 of `discover_venues`: union both providers' names per category
as sets, then `sorted(list(...))[:5]` each. -/
def mergedVenues (oa s2 : Option VenueData) : VenueData :=
  { conferences := sortedTop5 (contributedConfs oa ++ contributedConfs s2),
    journals := sortedTop5 (contributedJours oa ++ contributedJours s2) }

/-- `discover_venues` of `backend/venue_discovery/service.py`, parameterised
by the observable results of the two provider calls (`oa`: OpenAlex,
`s2`: Semantic Scholar; `none` means the provider raised or returned no data). -/
def discover_venues (oa s2 : Option VenueData) (domain : String) : VenueData :=
  let providersSuccessful := providerContributes oa || providerContributes s2
  let finalResult := mergedVenues oa s2
  if !providersSuccessful || (finalResult.conferences.isEmpty && finalResult.journals.isEmpty) then
    get_mock_venues domain
  else
    finalResult

/-! ## Literature retrieval (`backend/literature/service.py`)

Raw provider records are Python dicts with optional keys; the normalized
entries built by `_normalize` are dicts with both mandatory and optional
keys.  Provider HTTP calls are modelled by their observable results
(`none` = the call raised). -/

/-- A raw paper record as handed over by a literature provider.
`title` and `summary` model `str(p.get(key) or "")` rendering; the other
keys are optional. -/
structure RawPaper where
  title : String := ""
  summary : String := ""
  year : Option Int := none
  source : Option String := none
  venue : Option String := none
  cited_by_count : Option Int := none
  cited_by : Option Int := none
deriving DecidableEq, Repr

/-- A normalized paper entry as built by `LiteratureService._normalize`
(and as stored in the static mock set). -/
structure Paper where
  title : String
  summary : String
  year : Int
  source : Option String := none
  cited_by_count : Option Int := none
deriving DecidableEq, Repr

/-- Modelled from the spec: `backend/literature/mock_papers.py` is not
present under `src`; the spec describes the mock papers as a static
fallback set where titles are never empty and each paper has a year and a
non-empty summary, and `fetch("", limit)` returns `limit` of them. -/
def mockPapersTable : List Paper :=
  [ { title := "Mock Paper One", summary := "A static fallback summary one.", year := 2024 },
    { title := "Mock Paper Two", summary := "A static fallback summary two.", year := 2024 },
    { title := "Mock Paper Three", summary := "A static fallback summary three.", year := 2024 },
    { title := "Mock Paper Four", summary := "A static fallback summary four.", year := 2024 },
    { title := "Mock Paper Five", summary := "A static fallback summary five.", year := 2024 } ]

/-- Modelled from the spec: `get_mock_papers(n)` returns `n` papers from
the static mock set. -/
def get_mock_papers (n : Nat) : List Paper :=
  mockPapersTable.take n

/-- The synthesized summary of `_normalize` when the abstract is missing. -/
def titleOnlySummary (title : String) : String :=
  "This work appears to focus on: " ++ title ++
    ". (Abstract unavailable; summary generated from title only.)"

/-- Python `a or b or None` on two optional strings: an empty string is
falsy and is skipped. -/
def pyOrStr (a b : Option String) : Option String :=
  match a with
  | some s => if s = "" then (match b with
      | some t => if t = "" then none else some t
      | none => none) else some s
  | none => match b with
      | some t => if t = "" then none else some t
      | none => none

/-- The per-record body of the `_normalize` loop: drop the record when the
stripped title is empty, otherwise build the normalized entry. -/
def normEntry (p : RawPaper) : Option Paper :=
  let title := pyStrip p.title
  if title = "" then none
  else
    let summary := pyStrip p.summary
    some { title := title,
           summary := if summary = "" then titleOnlySummary title else summary,
           year := p.year.getD 2024,
           source := pyOrStr p.source p.venue,
           cited_by_count := p.cited_by_count <|> p.cited_by }

namespace LiteratureService

/-- The main loop of `LiteratureService._normalize`: keep at most `limit`
records, drop records whose stripped title is empty, normalize each
surviving entry. -/
def normCore (papers : List RawPaper) (limit : Nat) : List Paper :=
  (papers.take limit).filterMap normEntry

/-- The padding step of `_normalize`: when between 1 and 2 results
survive, extend with mock papers up to 3. -/
def normPadded (out : List Paper) : List Paper :=
  if 0 < out.length ∧ out.length < 3 then out ++ get_mock_papers (3 - out.length) else out

/-- `LiteratureService._normalize`: the loop, the padding, and the final
truncation to `limit`. -/
def normalize (papers : List RawPaper) (limit : Nat) : List Paper :=
  (normPadded (normCore papers limit)).take limit

/-- The citation-count enrichment body of `fetch` applied to one OpenAlex
record: on a successful Semantic Scholar lookup the count becomes the
maximum of the parsed OpenAlex count (missing parses as 0) and the looked
up count; on a failed lookup (`None` or a raised exception) the record is
kept unchanged. -/
def enrichPaper (semCit : String → Option Int) (p : RawPaper) : RawPaper :=
  match semCit p.title with
  | some s => { p with cited_by_count := some (max (p.cited_by_count.getD 0) s) }
  | none => p

/-- `limit = max(3, min(int(limit), 5))` at the top of `fetch`. -/
def clampLimit (limit : Int) : Nat :=
  (max 3 (min limit 5)).toNat

/-- Observable results of the external calls `fetch` may make.  A `none`
search result models a raised exception (caught and replaced by `[]`);
`semCitation` models `SemanticScholarProvider.get_citation_count`, whose
`none` covers both a `None` return and a raised exception. -/
structure FetchEnv where
  openalexSearch : Option (List RawPaper)
  semSearch : Option (List RawPaper)
  arxivSearch : Option (List RawPaper)
  semCitation : String → Option Int

/-- The provider search calls `fetch` can issue, in priority order. -/
inductive ProviderCall where
  | openalex
  | semanticScholar
  | arxiv
deriving DecidableEq, Repr

/-- The OpenAlex raw result after the best-effort enrichment pass
(enrichment only runs when the search returned a non-empty list). -/
def oaEnriched (env : FetchEnv) : List RawPaper :=
  let papers := env.openalexSearch.getD []
  if papers.isEmpty then papers else papers.map (enrichPaper env.semCitation)

/-- Normalized OpenAlex result inside `fetch`. -/
def oaNormalized (env : FetchEnv) (lim : Nat) : List Paper :=
  normalize (oaEnriched env) lim

/-- Normalized Semantic Scholar result inside `fetch`. -/
def s2Normalized (env : FetchEnv) (lim : Nat) : List Paper :=
  normalize (env.semSearch.getD []) lim

/-- Normalized arXiv result inside `fetch`. -/
def arxivNormalized (env : FetchEnv) (lim : Nat) : List Paper :=
  normalize (env.arxivSearch.getD []) lim

/-- `LiteratureService.fetch`, instrumented with the list of provider
search calls it issues.  Mirrors the control flow of the source: an
empty stripped query short-circuits to mocks; otherwise the providers are
consulted in priority order and the first non-empty normalized result is
returned; if all three normalize to empty, mocks are returned. -/
def fetchT (env : FetchEnv) (query : String) (limit : Int) :
    List Paper × List ProviderCall :=
  let q := pyStrip query
  let lim := clampLimit limit
  if q = "" then
    (get_mock_papers lim, [])
  else if oaNormalized env lim ≠ [] then
    (oaNormalized env lim, [.openalex])
  else if s2Normalized env lim ≠ [] then
    (s2Normalized env lim, [.openalex, .semanticScholar])
  else if arxivNormalized env lim ≠ [] then
    (arxivNormalized env lim, [.openalex, .semanticScholar, .arxiv])
  else
    (get_mock_papers lim, [.openalex, .semanticScholar, .arxiv])

/-- `LiteratureService.fetch`: the papers returned to the caller. -/
def fetch (env : FetchEnv) (query : String) (limit : Int) : List Paper :=
  (fetchT env query limit).1

end LiteratureService

/-! ## Idea generation (`backend/ideas/`) -/

/-- Python `str.splitlines()`: split at line boundaries, treating
a CR-LF pair as one boundary, with no trailing empty line for a
terminal newline. -/
def splitlinesAux : List Char → List Char → List String
  | [], acc => if acc.isEmpty then [] else [String.mk acc.reverse]
  | '\x0d' :: '\x0a' :: rest, acc => String.mk acc.reverse :: splitlinesAux rest []
  | '\x0a' :: rest, acc => String.mk acc.reverse :: splitlinesAux rest []
  | '\x0d' :: rest, acc => String.mk acc.reverse :: splitlinesAux rest []
  | c :: rest, acc => splitlinesAux rest (c :: acc)

/-- Python `text.splitlines()` as used in `parse_topics`. -/
def splitlines (text : String) : List String :=
  splitlinesAux text.data []

/-- The separator class of the regex in `backend/ideas/parser.py`:
a closing parenthesis, a period, whitespace, or a hyphen. -/
def isSepChar (c : Char) : Bool :=
  c = ')' || c = '.' || c = '-' || c.isWhitespace

/-- One line against the anchored regex of `parse_topics`: optional
leading whitespace, one or more digits, one or more separator characters,
then a non-empty remainder which is captured and stripped.  When the
separator run would swallow the whole rest of the line, the regex engine
backtracks to leave one character for the capture group (still requiring
at least one separator). -/
def matchNumberedLine (line : String) : Option String :=
  let s := line.data.dropWhile Char.isWhitespace
  let digits := s.takeWhile Char.isDigit
  if digits.isEmpty then none
  else
    let rest := s.dropWhile Char.isDigit
    let seps := rest.takeWhile isSepChar
    if seps.isEmpty then none
    else
      let j := if seps.length = rest.length then seps.length - 1 else seps.length
      if j = 0 then none
      else some (pyStrip (String.mk (rest.drop j)))

/-- `parse_topics` of `backend/ideas/parser.py`: scan the lines, capture
every numbered line's remainder in order, ignore the other lines. -/
def parse_topics (text : String) : List String :=
  (splitlines text).filterMap matchNumberedLine

/-- Modelled from the spec: `backend/ideas/fallback.py` is not present
under `src`; the spec says idea generation appends domain-specific
fallback topics when fewer than 3 topics were parsed. -/
def fallback_topics (domain : String) : List String :=
  [ "Survey of open problems in " ++ domain,
    "Benchmark design for " ++ domain,
    "Data-efficient methods for " ++ domain,
    "Evaluation metrics for " ++ domain,
    "Reproducibility in " ++ domain ]

/-- `build_prompt` of `backend/ideas/prompt.py`. -/
def build_prompt (domain : String) (venues : List String) (papers : List Paper) : String :=
  let venueText := String.intercalate ", " venues
  let paperText := String.intercalate "\x0a"
    (papers.map (fun p =>
      "- " ++ p.title ++ " (" ++ toString p.year ++ "): " ++ p.summary))
  "\x0aYou are an expert researcher in " ++ domain ++ ".\x0a\x0a" ++
  "Target venues:\x0a" ++ venueText ++ "\x0a\x0a" ++
  "Example papers:\x0a" ++ paperText ++ "\x0a\x0a" ++
  "Generate 3-5 novel research topics inspired by the above papers.\x0a" ++
  "Return only a numbered list.\x0a"

namespace IdeaGenerationService

/-- `IdeaGenerationService.generate` of `backend/ideas/service.py`:
build the prompt, call the LLM once, parse the numbered list, append the
fallback topics when fewer than 3 parsed, truncate to 5. -/
def generate (domain : String) (venues : List String) (papers : List Paper)
    (llm_call : String → String) : List String :=
  let raw := llm_call (build_prompt domain venues papers)
  let topics := parse_topics raw
  let topics := if topics.length < 3 then topics ++ fallback_topics domain else topics
  topics.take 5

end IdeaGenerationService

/-- The ideas padding block of `generate_content` in
`backend/api_services.py`: truncate to 5 and pad with the fixed
placeholder until the list has exactly 5 entries. -/
def ensureFiveIdeas (ideas : List String) : List String :=
  let l := ideas.take 5
  l ++ List.replicate (5 - l.length) "(no idea generated)"

/-- The idea-generation step of `generate_content`: the service result
followed by the orchestration padding. -/
def generateContentIdeas (domain : String) (venues : List String) (papers : List Paper)
    (llm_call : String → String) : List String :=
  ensureFiveIdeas (IdeaGenerationService.generate domain venues papers llm_call)

/-! ## Helper lemmas -/

theorem mockPapersTable_length : mockPapersTable.length = 5 := rfl

theorem get_mock_papers_length (n : Nat) : (get_mock_papers n).length = min n 5 := by
  simp [get_mock_papers, List.length_take, mockPapersTable_length]

theorem get_mock_papers_titles (n : Nat) : ∀ q ∈ get_mock_papers n, q.title ≠ "" := by
  intro q hq
  have h5 : ∀ q ∈ mockPapersTable, q.title ≠ "" := by decide
  exact h5 q (List.mem_of_mem_take hq)

theorem normEntry_title_ne {p : RawPaper} {q : Paper} (h : normEntry p = some q) :
    q.title ≠ "" := by
  simp only [normEntry] at h
  split at h
  · exact absurd h (by simp)
  · rename_i ht
    have hq := Option.some.inj h
    rw [← hq]
    exact ht

namespace LiteratureService

theorem normPadded_length (out : List Paper) :
    (normPadded out).length = if 0 < out.length ∧ out.length < 3 then 3 else out.length := by
  unfold normPadded
  split
  · rename_i h
    rw [List.length_append, get_mock_papers_length]
    omega
  · rfl

theorem normalize_length_le (ps : List RawPaper) (lim : Nat) :
    (normalize ps lim).length ≤ lim :=
  List.length_take_le _ _

theorem normalize_length_ge (ps : List RawPaper) (lim : Nat) (h3 : 3 ≤ lim)
    (h : normalize ps lim ≠ []) : 3 ≤ (normalize ps lim).length := by
  have hlen : (normalize ps lim).length = min lim (normPadded (normCore ps lim)).length := by
    simp [normalize, List.length_take]
  rw [normPadded_length] at hlen
  by_cases hc : 0 < (normCore ps lim).length ∧ (normCore ps lim).length < 3
  · rw [if_pos hc] at hlen
    omega
  · rw [if_neg hc] at hlen
    rcases Nat.eq_zero_or_pos (normCore ps lim).length with h0 | hpos
    · exfalso
      apply h
      have hcnil : normCore ps lim = [] := List.length_eq_zero.mp h0
      simp [normalize, normPadded, hcnil]
    · omega

theorem normalize_titles (ps : List RawPaper) (lim : Nat) :
    ∀ q ∈ normalize ps lim, q.title ≠ "" := by
  intro q hq
  have hq1 : q ∈ normPadded (normCore ps lim) := List.mem_of_mem_take hq
  unfold normPadded at hq1
  split at hq1
  · rcases List.mem_append.mp hq1 with hc | hm
    · obtain ⟨p, _, hp⟩ := List.mem_filterMap.mp hc
      exact normEntry_title_ne hp
    · exact get_mock_papers_titles _ q hm
  · obtain ⟨p, _, hp⟩ := List.mem_filterMap.mp hq1
    exact normEntry_title_ne hp

theorem clampLimit_bounds (limit : Int) :
    3 ≤ clampLimit limit ∧ clampLimit limit ≤ 5 := by
  unfold clampLimit
  have h1 : (3 : Int) ≤ max 3 (min limit 5) := le_max_left _ _
  have h2 : max 3 (min limit 5) ≤ 5 := max_le (by norm_num) (min_le_right _ _)
  omega

theorem clampLimit_idem (limit : Int) :
    clampLimit (max 3 (min limit 5)) = clampLimit limit := by
  unfold clampLimit
  have h1 : (3 : Int) ≤ max 3 (min limit 5) := le_max_left _ _
  have h2 : max 3 (min limit 5) ≤ 5 := max_le (by norm_num) (min_le_right _ _)
  rw [min_eq_left h2, max_eq_right h1]

/-- Every exit of `fetch` yields between 3 and 5 papers, all with
non-empty titles. -/
theorem fetch_bounds (env : FetchEnv) (q : String) (limit : Int) :
    3 ≤ (fetch env q limit).length ∧ (fetch env q limit).length ≤ 5 ∧
    ∀ p ∈ fetch env q limit, p.title ≠ "" := by
  obtain ⟨hl3, hl5⟩ := clampLimit_bounds limit
  simp only [fetch, fetchT]
  split
  · refine ⟨?_, ?_, get_mock_papers_titles _⟩ <;>
      (rw [get_mock_papers_length]; omega)
  · split
    · rename_i hne
      exact ⟨normalize_length_ge _ _ hl3 hne,
             le_trans (normalize_length_le _ _) hl5,
             normalize_titles _ _⟩
    · split
      · rename_i hne
        exact ⟨normalize_length_ge _ _ hl3 hne,
               le_trans (normalize_length_le _ _) hl5,
               normalize_titles _ _⟩
      · split
        · rename_i hne
          exact ⟨normalize_length_ge _ _ hl3 hne,
                 le_trans (normalize_length_le _ _) hl5,
                 normalize_titles _ _⟩
        · refine ⟨?_, ?_, get_mock_papers_titles _⟩ <;>
            (rw [get_mock_papers_length]; omega)

end LiteratureService

/-- `get_mock_venues` always returns one of the four static tables. -/
theorem get_mock_venues_cases (domain : String) :
    get_mock_venues domain = MOCK_VENUES_healthcare ∨
    get_mock_venues domain = MOCK_VENUES_finance ∨
    get_mock_venues domain = MOCK_VENUES_education ∨
    get_mock_venues domain = MOCK_VENUES_default := by
  simp only [get_mock_venues]
  split
  · exact Or.inl rfl
  · split
    · exact Or.inr (Or.inl rfl)
    · split
      · exact Or.inr (Or.inr (Or.inl rfl))
      · exact Or.inr (Or.inr (Or.inr rfl))

/-- Every static venue table has at most five entries per list and no
duplicates inside a list. -/
theorem mock_venues_shape (domain : String) :
    (get_mock_venues domain).conferences.length ≤ 5 ∧
    (get_mock_venues domain).journals.length ≤ 5 ∧
    (get_mock_venues domain).conferences.Nodup ∧
    (get_mock_venues domain).journals.Nodup := by
  rcases get_mock_venues_cases domain with h | h | h | h <;> rw [h] <;> decide

/-- In every static venue table the two lists are disjoint. -/
theorem mock_venues_disjoint (domain : String) :
    ∀ x ∈ (get_mock_venues domain).conferences, x ∉ (get_mock_venues domain).journals := by
  rcases get_mock_venues_cases domain with h | h | h | h <;> rw [h] <;> decide

/-- `discover_venues` returns either the merged provider result or a mock
table. -/
theorem discover_venues_cases (oa s2 : Option VenueData) (domain : String) :
    discover_venues oa s2 domain = mergedVenues oa s2 ∨
    discover_venues oa s2 domain = get_mock_venues domain := by
  simp only [discover_venues]
  split
  · exact Or.inr rfl
  · exact Or.inl rfl

/-- The length of `ensureFiveIdeas` is always exactly five. -/
theorem ensureFiveIdeas_length (ideas : List String) :
    (ensureFiveIdeas ideas).length = 5 := by
  simp only [ensureFiveIdeas, List.length_append, List.length_replicate, List.length_take]
  omega

/-! ## Claim theorems -/

/-- Claim C1: for every query string and every limit, whenever at least
one literature provider or the mock path yields any usable record (in the
model the mock path always does), `LiteratureService.fetch` returns an
ordered sequence of between 3 and 5 papers, and every returned paper has
a non-empty title. -/
theorem fetch_returns_three_to_five_nonempty_titles
    (env : LiteratureService.FetchEnv) (query : String) (limit : Int) :
    3 ≤ (LiteratureService.fetch env query limit).length ∧
    (LiteratureService.fetch env query limit).length ≤ 5 ∧
    ∀ p ∈ LiteratureService.fetch env query limit, p.title ≠ "" :=
  LiteratureService.fetch_bounds env query limit

/-- Claim C2: for every domain, if every venue provider fails (raises,
modelled `none`, or returns no data), `discover_venues` returns exactly
`get_mock_venues domain`; being a total function, it never raises. -/
theorem discover_venues_all_providers_failed (oa s2 : Option VenueData) (domain : String)
    (hoa : oa = none ∨ oa = some ⟨[], []⟩) (hs2 : s2 = none ∨ s2 = some ⟨[], []⟩) :
    discover_venues oa s2 domain = get_mock_venues domain := by
  have coa : providerContributes oa = false := by
    rcases hoa with h | h <;> subst h <;> rfl
  have cs2 : providerContributes s2 = false := by
    rcases hs2 with h | h <;> subst h <;> rfl
  simp [discover_venues, coa, cs2]

/-- Witness for C2 at a concrete domain with both providers failing. -/
theorem discover_venues_all_providers_failed_witness :
    discover_venues none none "quantum computing" = get_mock_venues "quantum computing" :=
  discover_venues_all_providers_failed none none "quantum computing" (Or.inl rfl) (Or.inl rfl)

/-- Claim C3: for every domain, venue list, paper list and LLM behaviour,
the idea-generation step of `generate_content` (service result plus the
orchestration padding) returns an ordered sequence of exactly 5 strings;
this covers in particular LLM responses with 0, 1, 5 or 10 parseable
topic lines. -/
theorem generate_content_ideas_exactly_five (domain : String) (venues : List String)
    (papers : List Paper) (llm_call : String → String) :
    (generateContentIdeas domain venues papers llm_call).length = 5 :=
  ensureFiveIdeas_length _

/-- Counterexample for C4: when OpenAlex classifies a venue name as a
conference and Semantic Scholar classifies the same name as a journal,
the merged result of `discover_venues` carries the name in both lists. -/
theorem venue_merge_disjoint_counterexample :
    "ICLR" ∈ (discover_venues (some ⟨["ICLR"], []⟩) (some ⟨[], ["ICLR"]⟩) "ai").conferences ∧
    "ICLR" ∈ (discover_venues (some ⟨["ICLR"], []⟩) (some ⟨[], ["ICLR"]⟩) "ai").journals := by
  decide

/-- Claim C4 (amended): the merged `VenueSet` has disjoint conference and
journal lists whenever no venue name is contributed as a conference by
one provider and as a journal by the other; the mock tables are always
disjoint. -/
theorem venue_merge_disjoint_amended (oa s2 : Option VenueData) (domain : String)
    (h : ∀ x ∈ contributedConfs oa ++ contributedConfs s2,
         x ∉ contributedJours oa ++ contributedJours s2) :
    ∀ x ∈ (discover_venues oa s2 domain).conferences,
      x ∉ (discover_venues oa s2 domain).journals := by
  rcases discover_venues_cases oa s2 domain with hd | hd <;> rw [hd]
  · intro x hx hj
    exact h x (mem_sortedTop5 hx) (mem_sortedTop5 hj)
  · exact mock_venues_disjoint domain

/-- Witness for the amended C4 at concrete disjoint provider outputs. -/
theorem venue_merge_disjoint_amended_witness :
    ("A" : String) ∉ (discover_venues (some ⟨["A"], ["B"]⟩) none "ai").journals :=
  venue_merge_disjoint_amended (some ⟨["A"], ["B"]⟩) none "ai" (by decide) "A" (by decide)

/-- Counterexample for C5: when both providers fail, `discover_venues`
returns a mock table verbatim, and the default mock conference list is
not lexicographically sorted. -/
theorem discover_venues_sorted_counterexample :
    discover_venues none none "x" = MOCK_VENUES_default ∧
    ¬ List.Sorted strLeProp (discover_venues none none "x").conferences :=
  ⟨by decide, by decide⟩

/-- Claim C5 (amended): `discover_venues` always returns at most 5
conferences and at most 5 journals, each list duplicate-free; the lists
are lexicographically sorted whenever the result comes from the provider
merge, while the mock fallback tables are returned verbatim (and are not
necessarily sorted). -/
theorem discover_venues_shape_amended (oa s2 : Option VenueData) (domain : String) :
    ((discover_venues oa s2 domain).conferences.length ≤ 5 ∧
     (discover_venues oa s2 domain).journals.length ≤ 5 ∧
     (discover_venues oa s2 domain).conferences.Nodup ∧
     (discover_venues oa s2 domain).journals.Nodup) ∧
    (List.Sorted strLeProp (mergedVenues oa s2).conferences ∧
     List.Sorted strLeProp (mergedVenues oa s2).journals) ∧
    (discover_venues oa s2 domain = mergedVenues oa s2 ∨
     discover_venues oa s2 domain = get_mock_venues domain) := by
  refine ⟨?_, ⟨sortedTop5_sorted _, sortedTop5_sorted _⟩, discover_venues_cases oa s2 domain⟩
  rcases discover_venues_cases oa s2 domain with hd | hd <;> rw [hd]
  · exact ⟨sortedTop5_length _, sortedTop5_length _, sortedTop5_nodup _, sortedTop5_nodup _⟩
  · exact mock_venues_shape domain

namespace LiteratureService

/-- Claim C6: for every non-empty (after stripping) query, `fetch`
consults the providers strictly in the order OpenAlex, Semantic Scholar,
arXiv, mocks, issues exactly the search calls up to the first provider
whose normalized output is non-empty, and returns that output (mocks when
all three normalize to empty). -/
theorem fetch_provider_priority (env : FetchEnv) (query : String) (limit : Int)
    (h : pyStrip query ≠ "") :
    (fetchT env query limit).2 =
      (if oaNormalized env (clampLimit limit) ≠ [] then
        [ProviderCall.openalex]
       else if s2Normalized env (clampLimit limit) ≠ [] then
        [ProviderCall.openalex, ProviderCall.semanticScholar]
       else
        [ProviderCall.openalex, ProviderCall.semanticScholar, ProviderCall.arxiv]) ∧
    (fetchT env query limit).1 =
      (if oaNormalized env (clampLimit limit) ≠ [] then
        oaNormalized env (clampLimit limit)
       else if s2Normalized env (clampLimit limit) ≠ [] then
        s2Normalized env (clampLimit limit)
       else if arxivNormalized env (clampLimit limit) ≠ [] then
        arxivNormalized env (clampLimit limit)
       else
        get_mock_papers (clampLimit limit)) := by
  by_cases hoa : oaNormalized env (clampLimit limit) = []
  · by_cases hs2 : s2Normalized env (clampLimit limit) = []
    · by_cases harx : arxivNormalized env (clampLimit limit) = []
      · simp [fetchT, h, hoa, hs2, harx]
      · simp [fetchT, h, hoa, hs2, harx]
    · simp [fetchT, h, hoa, hs2]
  · simp [fetchT, h, hoa]

/-- Witness for C6: with a usable OpenAlex result, only the OpenAlex
search is issued. -/
theorem fetch_provider_priority_witness :
    (fetchT ⟨some [{ title := "Deep Learning" }], none, none, fun _ => none⟩ "ml" 5).2 =
      [ProviderCall.openalex] := by
  have h := (fetch_provider_priority
    ⟨some [{ title := "Deep Learning" }], none, none, fun _ => none⟩ "ml" 5 (by decide)).1
  rw [if_pos (by decide :
    oaNormalized ⟨some [{ title := "Deep Learning" }], none, none, fun _ => none⟩
      (clampLimit 5) ≠ [])] at h
  exact h

/-- Claim C7: for every query that strips to the empty string, `fetch`
returns the mock paper set immediately and issues no provider call. -/
theorem fetch_empty_query_returns_mocks (env : FetchEnv) (query : String) (limit : Int)
    (h : pyStrip query = "") :
    fetchT env query limit = (get_mock_papers (clampLimit limit), []) := by
  simp [fetchT, h]

/-- Witness for C7 at a whitespace-only query. -/
theorem fetch_empty_query_returns_mocks_witness :
    fetchT ⟨none, none, none, fun _ => none⟩ "  " 5 =
      (get_mock_papers (clampLimit 5), []) :=
  fetch_empty_query_returns_mocks ⟨none, none, none, fun _ => none⟩ "  " 5 (by decide)

/-- Claim C9: for every query and every integer limit, `fetch` behaves
exactly as if called with the clamped limit `max 3 (min limit 5)` (it is
a total function, so out-of-range limits cannot raise) and never returns
more than 5 papers. -/
theorem fetch_limit_clamping (env : FetchEnv) (query : String) (limit : Int) :
    fetch env query limit = fetch env query (max 3 (min limit 5)) ∧
    (fetch env query limit).length ≤ 5 := by
  constructor
  · simp only [fetch, fetchT, clampLimit_idem]
  · exact (fetch_bounds env query limit).2.1

/-- Claim C10: the citation-count enrichment of an OpenAlex record never
decreases the stored count: on a successful Semantic Scholar lookup the
final count is the maximum of the parsed OpenAlex count and the lookup
result, and on a failed lookup the record is unchanged. -/
theorem citation_enrichment_monotone (semCit : String → Option Int) (p : RawPaper) :
    p.cited_by_count.getD 0 ≤ (enrichPaper semCit p).cited_by_count.getD 0 ∧
    (∀ s : Int, semCit p.title = some s →
      (enrichPaper semCit p).cited_by_count = some (max (p.cited_by_count.getD 0) s)) ∧
    (semCit p.title = none → enrichPaper semCit p = p) := by
  unfold enrichPaper
  cases hc : semCit p.title with
  | none =>
    exact ⟨le_refl _, fun s hs => absurd hs (by simp), fun _ => rfl⟩
  | some s =>
    refine ⟨?_, fun t ht => ?_, fun hn => absurd hn (by simp)⟩
    · simp only [Option.getD_some]
      exact le_max_left _ _
    · obtain rfl := Option.some.inj ht
      rfl

/-- Witness for C10: a lookup returning 7 against a stored count of 3
yields 7. -/
theorem citation_enrichment_monotone_witness :
    (enrichPaper (fun _ => some 7) { title := "T", cited_by_count := some 3 }).cited_by_count =
      some 7 := by
  have h := (citation_enrichment_monotone (fun _ => some 7)
    { title := "T", cited_by_count := some 3 }).2.1 7 rfl
  rw [h]
  decide

end LiteratureService

/-- Claim C8: the idea parser maps the synthetic LLM response with three
numbered lines to exactly its three topics in order; separators may be a
closing parenthesis, a period, a hyphen or whitespace, and non-matching
lines are ignored; in general `parse_topics` is the in-order collection
of the matching lines' captures. -/
theorem parse_topics_round_trip :
    parse_topics "1. Idea A\n2. Idea B\n3. Idea C" = ["Idea A", "Idea B", "Idea C"] ∧
    parse_topics "1) Alpha\nnot numbered\n2- Beta\n3 Gamma\nx. nope" =
      ["Alpha", "Beta", "Gamma"] ∧
    ∀ text, parse_topics text = (splitlines text).filterMap matchNumberedLine :=
  ⟨by decide, by decide, fun _ => rfl⟩
